import Mathlib

/-!
Shallow embedding of `aiotelegrambot/bot.py` (classes `BotBase` and `Bot`):
the bot lifecycle (`__init__`, `initialize`, `close`), handler registration
(`add_handler` and the `command` / `trigger_message` decorators), dispatch
(`process_update`), batch processing (`_process_updates`) and the polling
loop (`_get_updates`).

Conventions of the embedding:
* A raw Telegram update is its `update_id` (a natural number) together with
  an opaque payload standing for the rest of the JSON object.
* `async` methods are modelled as state-passing functions; this model is
  sequential, so an `await` point does not interleave other state changes.
  A method that can raise returns the state at the moment of the raise
  together with the exception, since nothing is written before the raise.
* The `aiojobs` scheduler is a list of spawned jobs, or `none` when
  `self._scheduler is None`.
* The fields `middlewares`, `ctx`, `client`, `webhook` and `loop` never
  influence the control flow or the state transitions studied here; the
  middleware-wrapped unit of work spawned for one update is reified as a
  `Job.dispatch` carrying that raw update.
* `client.py`, `errors.py`, `handler.py`, `message.py`, `middleware.py`,
  `rules.py` and `types.py` are not under `src/`; the few facts needed
  about them are modelled from the spec and marked as such.
-/

/-- One raw update fetched from the remote API: its `update_id` plus an
opaque payload standing for the rest of the JSON object. -/
structure RawUpdate where
  update_id : Nat
  payload : Nat
deriving DecidableEq

/-- Modelled from the spec: `types.py` is not under `src/`; the spec calls
these the content kinds of the classification axes. -/
inductive Content where
  | command
  | text
  | media
  | unknown
deriving DecidableEq

/-- Modelled from the spec: chat kinds (group vs direct chat). -/
inductive Chat where
  | direct
  | group
deriving DecidableEq

/-- Modelled from the spec: interaction kinds (new vs edited message). -/
inductive Incoming where
  | newMessage
  | editedMessage
deriving DecidableEq

/-- The `Union[Chat, Incoming, Content]` type accepted as `message_type` by
`Bot.trigger_message` and stored as `content_type` of a handler entry. -/
inductive MessageType where
  | chat (c : Chat)
  | inc (i : Incoming)
  | content (c : Content)
deriving DecidableEq

/-- Modelled from the spec: `rules.py` is not under `src/`; rules are
pluggable predicates.  `Rule.cmd` stands for the `Command()` rule that
`Bot.command` registers; `Rule.custom` stands for any other rule object. -/
inductive Rule where
  | cmd
  | custom (n : Nat)
deriving DecidableEq

/-- One registered handler entry: the `content_type` and `rule` keyword
arguments passed to `Handlers.add`, plus the callback (identified by a
number, since only its identity matters here). -/
structure HandlerEntry where
  content_type : MessageType
  rule : Option Rule
  callback : Nat
deriving DecidableEq

/-- A unit of work spawned on the `aiojobs` scheduler: the background
polling task spawned by `initialize`, or one middleware-wrapped handler
execution spawned by `process_update` for one raw update. -/
inductive Job where
  | poller
  | dispatch (raw : RawUpdate)
deriving DecidableEq

/-- The exceptions raised by the embedded code.  `runtimeError` is the
`RuntimeError` of `process_update` (the spec calls it `NotInitializedError`);
`botError` is `aiotelegrambot.errors.BotError` (for the no-handler case the
spec calls it `ConfigurationError`). -/
inductive PyErr where
  | runtimeError (msg : String)
  | botError (msg : String)
deriving DecidableEq

/-- A Python value as far as registration is concerned: `PyVal.none` is
Python `None`, `PyVal.func f` is the function object identified by `f`. -/
inductive PyVal where
  | none
  | func (f : Nat)
deriving DecidableEq

/-- The mutable state of a `BotBase` / `Bot` instance: `self.handlers`,
`self._scheduler`, `self._closed` and `self._update_id`. -/
structure BotState where
  handlers : List HandlerEntry
  scheduler : Option (List Job)
  closed : Bool
  update_id : Nat
deriving DecidableEq

/-- The state produced by `BotBase.__init__`: empty handler collection, no
scheduler, closed, offset 0. -/
def initialState : BotState :=
  { handlers := [], scheduler := none, closed := true, update_id := 0 }

/-- Modelled from the spec: `handler.py` (the `Handlers` collection) is not
under `src/`.  The spec says registration appends a (predicate, callback)
entry to an ordered list and returns the callback unchanged for further
use, so `Handlers.add` is a decorator factory whose decorator appends the
entry and returns the callback. -/
def handlers_add (hs : List HandlerEntry) (content_type : MessageType)
    (rule : Option Rule) (f : Nat) : List HandlerEntry × PyVal :=
  (hs ++ [{ content_type := content_type, rule := rule, callback := f }], PyVal.func f)

/-- `BotBase.add_handler`: runs `self.handlers.add(*args, **kwargs)(handler)`
and discards its value; the method body has no `return` statement, so the
method itself returns Python `None`. -/
def add_handler (s : BotState) (handler : Nat) (content_type : MessageType)
    (rule : Option Rule) : BotState × PyVal :=
  ({ s with handlers := (handlers_add s.handlers content_type rule handler).1 }, PyVal.none)

/-- A reified decorator closure, as produced by `Bot.command()` and
`Bot.trigger_message(...)`: it remembers the `content_type` and `rule` it
will pass to `add_handler`. -/
structure Decorator where
  content_type : MessageType
  rule : Option Rule
deriving DecidableEq

/-- The decorator returned by `Bot.command()`: it registers the decorated
function with `content_type=Content.COMMAND` and `rule=Command()`. -/
def command_decorator : Decorator :=
  { content_type := MessageType.content Content.command, rule := some Rule.cmd }

/-- Applying a decorator to a function `f` runs its body
`return self.add_handler(func, content_type=..., rule=...)`: the decorated
name is bound to whatever `add_handler` returns. -/
def apply_decorator (s : BotState) (d : Decorator) (f : Nat) : BotState × PyVal :=
  add_handler s f d.content_type d.rule

/-- Python truthiness of the `message_type` argument of `trigger_message`:
`Chat`, `Incoming` and `Content` members are enum-like objects and hence
truthy, so the argument is falsy exactly when it is `None` (the default). -/
def truthy : Option MessageType → Bool
  | none => false
  | some _ => true

/-- `Bot.trigger_message`: raises `BotError` when `message_type` is falsy,
before the inner `decorator` function is even created; otherwise returns
the decorator closure.  The bot state is threaded through unchanged because
the method touches no instance state. -/
def trigger_message (s : BotState) (mt : Option MessageType) (rule : Option Rule) :
    BotState × Except PyErr Decorator :=
  match mt with
  | none =>
    (s, Except.error (PyErr.botError "message_type Union Chat Incoming Content must be specifized"))
  | some v => (s, Except.ok { content_type := v, rule := rule })

/-- `BotBase.initialize`: a no-op while running; raises `BotError` when no
handler is registered (before any state is written); otherwise flips
`_closed`, creates a scheduler and, unless `webhook` is set, spawns the
polling task on it.  The exception case returns the input state because the
raise happens before any assignment. -/
def initialise (s : BotState) (webhook : Bool) : BotState × Option PyErr :=
  if s.closed = false then (s, none)
  else if s.handlers.isEmpty then
    (s, some (PyErr.botError "Cant initialize with no one handler"))
  else
    ({ s with
        closed := false
        scheduler := some (if webhook then [] else [Job.poller]) }, none)

/-- The observable steps `BotBase.close` performs, in order: the
`self._closed = True` write, one `await job.wait()` per scheduled job, the
`await self._scheduler.close()` teardown, and the `self._update_id = 0`
reset. -/
inductive CloseEvent where
  | setClosed
  | waitJob (j : Job)
  | schedClose
  | resetOffset
deriving DecidableEq

/-- `BotBase.close`: a no-op when already closed; otherwise flips
`_closed`, awaits every job currently on the scheduler, tears the
scheduler down and zeroes `_update_id`.  Besides the final state it
returns the ordered trace of the steps it performed. -/
def close (s : BotState) : BotState × List CloseEvent :=
  if s.closed then (s, [])
  else
    ({ s with closed := true, scheduler := none, update_id := 0 },
      CloseEvent.setClosed ::
        ((s.scheduler.getD []).map CloseEvent.waitJob ++
          [CloseEvent.schedClose, CloseEvent.resetOffset]))

/-- `Bot.process_update`: raises `RuntimeError` while `_closed` is true
(before anything is spawned); otherwise classifies the update, resolves a
handler (stateless reads of `types.recognize_type` and `self.handlers.get`)
and spawns the middleware-wrapped unit of work, reified as
`Job.dispatch raw`, on the scheduler. -/
def process_update (s : BotState) (raw : RawUpdate) : BotState × Option PyErr :=
  if s.closed = true then (s, some (PyErr.runtimeError "The bot isnt initialized"))
  else
    ({ s with scheduler := s.scheduler.map (fun js => js ++ [Job.dispatch raw]) }, none)

/-- The `for raw in data["result"]` loop body of `BotBase._process_updates`:
dispatch the update, then `self._update_id = max(raw["update_id"], self._update_id)`.
A raise inside `process_update` aborts the loop before the offset write of
that iteration. -/
def process_updates_go (s : BotState) : List RawUpdate → BotState × Option PyErr
  | [] => (s, none)
  | raw :: rest =>
    match process_update s raw with
    | (s1, some e) => (s1, some e)
    | (s1, none) =>
      process_updates_go { s1 with update_id := max raw.update_id s1.update_id } rest

/-- `BotBase._process_updates`: `data` is `none` when the fetched object is
falsy (absent), `some result` when it is a dict carrying the `result`
batch.  After the loop, `self._update_id += 1 if data["result"] else 0`. -/
def process_updates (s : BotState) (data : Option (List RawUpdate)) :
    BotState × Option PyErr :=
  match data with
  | none => (s, none)
  | some result =>
    match process_updates_go s result with
    | (s1, some e) => (s1, some e)
    | (s1, none) =>
      ({ s1 with update_id := s1.update_id + (if result.isEmpty then 0 else 1) }, none)

/-- `max(update_id in batch)`: the largest `update_id` of a batch (0 when
the batch is empty). -/
def maxId (l : List RawUpdate) : Nat :=
  l.foldl (fun acc r => max r.update_id acc) 0

/-- The `update_id` stream of a sequence of fetched batches, in fetch
order; absent data contributes nothing. -/
def streamIds : List (Option (List RawUpdate)) → List Nat
  | [] => []
  | b :: rest => (b.getD []).map RawUpdate.update_id ++ streamIds rest

/-- Running `_process_updates` once per fetched batch, in order. -/
def runProcess (s : BotState) (batches : List (Option (List RawUpdate))) : BotState :=
  batches.foldl (fun t b => (process_updates t b).1) s

/-- The offset the spec predicts after one `_process_updates` call:
`maxId` of the batch plus one for a non-empty batch, the previous offset
when the batch is empty or the data absent. -/
def expectedOffset (before : Nat) (b : Option (List RawUpdate)) : Nat :=
  match b with
  | none => before
  | some l => if l.isEmpty then before else maxId l + 1

/-- A sleep performed by the polling loop: the configured inter-cycle
`interval`, or a fixed number of seconds from an error branch. -/
inductive Sleep where
  | interval
  | fixed (secs : Nat)
deriving DecidableEq

/-- What one `await self.client.get_updates(...)` can produce: data, a
`TelegramApiError` carrying `e.response.status`, an `asyncio.TimeoutError`,
or an `aiohttp.ClientError`. -/
inductive FetchOutcome where
  | success (data : Option (List RawUpdate))
  | apiError (status : Nat)
  | timeoutError
  | clientError
deriving DecidableEq

/-- How one iteration of the `while` body of `_get_updates` ends: the loop
goes on to the next iteration after the listed sleeps, or an exception not
named by any `except` clause escapes and kills the polling task. -/
inductive IterExit where
  | continueLoop (sleeps : List Sleep)
  | uncaught (e : PyErr)
deriving DecidableEq

/-- One iteration of the `try`/`except` body of `Bot._get_updates`, given
the outcome of the fetch: on success process the batch and sleep the
interval; on `TelegramApiError` report it and sleep 30 for a status of 500
or more, 10 otherwise; on timeout just log; on `aiohttp.ClientError` log
and sleep 10.  A `RuntimeError` escaping `_process_updates` matches no
`except` clause. -/
def get_updates_iter (s : BotState) (o : FetchOutcome) : BotState × IterExit :=
  match o with
  | FetchOutcome.success data =>
    match process_updates s data with
    | (s1, none) => (s1, IterExit.continueLoop [Sleep.interval])
    | (s1, some e) => (s1, IterExit.uncaught e)
  | FetchOutcome.apiError status =>
    (s, IterExit.continueLoop [if 500 ≤ status then Sleep.fixed 30 else Sleep.fixed 10])
  | FetchOutcome.timeoutError => (s, IterExit.continueLoop [])
  | FetchOutcome.clientError => (s, IterExit.continueLoop [Sleep.fixed 10])

/-- The `while self._closed is False` loop of `Bot._get_updates`, driven by
a finite schedule of fetch outcomes.  Returns the final state and how many
iterations were entered: the `_closed` check at the top of each iteration
stops the loop, and an uncaught exception kills it after the iteration that
raised. -/
def pollRun (s : BotState) : List FetchOutcome → BotState × Nat
  | [] => (s, 0)
  | o :: rest =>
    if s.closed = true then (s, 0)
    else
      match get_updates_iter s o with
      | (s1, IterExit.continueLoop _) =>
        ((pollRun s1 rest).1, (pollRun s1 rest).2 + 1)
      | (s1, IterExit.uncaught _) => (s1, 1)

/-- A concrete running bot: one registered command handler, a fresh
scheduler carrying the polling task, offset 0 — the state right after a
successful `initialise` of a bot with one handler. -/
def sampleState : BotState :=
  { handlers := [{ content_type := MessageType.content Content.command
                   rule := some Rule.cmd
                   callback := 0 }]
    scheduler := some [Job.poller]
    closed := false
    update_id := 0 }

/-! ## Helper lemmas -/

/-- Folding the running-maximum update over a batch from any seed gives the
maximum of the seed and the maximum of the batch. -/
theorem foldl_max_shift (l : List RawUpdate) : ∀ s : Nat,
    l.foldl (fun acc r => max r.update_id acc) s = max s (maxId l) := by
  induction l with
  | nil => intro s; simp [maxId]
  | cons r t ih =>
    intro s
    simp only [List.foldl_cons, maxId] at *
    rw [ih (max r.update_id s), ih (max r.update_id 0)]
    simp [Nat.max_comm, Nat.max_assoc, Nat.max_left_comm]

/-- `maxId` of a cons. -/
theorem maxId_cons (a : RawUpdate) (t : List RawUpdate) :
    maxId (a :: t) = max a.update_id (maxId t) := by
  unfold maxId
  rw [List.foldl_cons, foldl_max_shift]
  simp [maxId]

/-- Every update of a batch has its id bounded by `maxId`. -/
theorem le_maxId (l : List RawUpdate) (r : RawUpdate) (h : r ∈ l) :
    r.update_id ≤ maxId l := by
  induction l with
  | nil => cases h
  | cons a t ih =>
    rw [maxId_cons]
    rcases List.mem_cons.mp h with h1 | h1
    · subst h1; exact Nat.le_max_left _ _
    · exact Nat.le_trans (ih h1) (Nat.le_max_right _ _)

/-- `maxId` of a non-empty batch is the id of one of its updates. -/
theorem maxId_mem (l : List RawUpdate) (h : l ≠ []) :
    ∃ r ∈ l, maxId l = r.update_id := by
  induction l with
  | nil => exact absurd rfl h
  | cons a t ih =>
    by_cases ht : t = []
    · subst ht
      exact ⟨a, List.mem_cons_self a [], by simp [maxId]⟩
    · rcases ih ht with ⟨r, hr, hmax⟩
      rw [maxId_cons]
      rcases Nat.le_total (maxId t) a.update_id with hle | hle
      · exact ⟨a, List.mem_cons_self a t, Nat.max_eq_left hle⟩
      · exact ⟨r, List.mem_cons_of_mem a hr, by rw [Nat.max_eq_right hle, hmax]⟩

/-- A bound that holds for some id of a non-empty batch transfers to
`maxId`. -/
theorem uid_le_maxId (l : List RawUpdate) (hne : l ≠ []) (u : Nat)
    (hle : ∀ i ∈ l.map RawUpdate.update_id, u ≤ i) : u ≤ maxId l := by
  rcases List.exists_mem_of_ne_nil l hne with ⟨r, hr⟩
  exact Nat.le_trans (hle r.update_id (List.mem_map.mpr ⟨r, hr, rfl⟩)) (le_maxId l r hr)

/-- A strict upper bound on every id of a non-empty batch is a strict
upper bound on `maxId`. -/
theorem maxId_lt (l : List RawUpdate) (hne : l ≠ []) (t : Nat)
    (hall : ∀ i ∈ l.map RawUpdate.update_id, i < t) : maxId l < t := by
  rcases maxId_mem l hne with ⟨r, hr, hmax⟩
  rw [hmax]
  exact hall r.update_id (List.mem_map.mpr ⟨r, hr, rfl⟩)

/-- While the bot is running, the dispatch loop of `_process_updates`
raises nothing, advances the offset to the running maximum and appends one
dispatch job per update, in order. -/
theorem go_spec (l : List RawUpdate) : ∀ s : BotState, s.closed = false →
    process_updates_go s l =
      ({ s with
          update_id := l.foldl (fun acc r => max r.update_id acc) s.update_id
          scheduler := s.scheduler.map (fun js => js ++ l.map Job.dispatch) }, none) := by
  induction l with
  | nil =>
    intro s h
    obtain ⟨hnd, sch, cl, uid⟩ := s
    cases sch <;> simp [process_updates_go]
  | cons r t ih =>
    intro s h
    obtain ⟨hnd, sch, cl, uid⟩ := s
    subst h
    have step : process_updates_go (⟨hnd, sch, false, uid⟩ : BotState) (r :: t) =
        process_updates_go
          ⟨hnd, sch.map (fun js => js ++ [Job.dispatch r]), false, max r.update_id uid⟩ t := rfl
    rw [step, ih _ rfl]
    cases sch <;> simp [List.append_assoc]

/-- While the bot is running, `_process_updates` raises nothing: the full
batch effect in one equation. -/
theorem process_updates_spec (s : BotState) (h : s.closed = false)
    (data : Option (List RawUpdate)) :
    process_updates s data =
      (match data with
       | none => (s, none)
       | some l =>
         ({ s with
             update_id :=
               l.foldl (fun acc r => max r.update_id acc) s.update_id +
                 (if l.isEmpty then 0 else 1)
             scheduler := s.scheduler.map (fun js => js ++ l.map Job.dispatch) }, none)) := by
  cases data with
  | none => rfl
  | some l =>
    calc process_updates s (some l)
        = (match process_updates_go s l with
           | (s1, some e) => (s1, some e)
           | (s1, none) =>
             ({ s1 with update_id := s1.update_id + (if l.isEmpty then 0 else 1) },
               none)) := rfl
      _ = _ := by rw [go_spec l s h]

/-- While the bot is running, `_process_updates` completes successfully and
leaves the bot running. -/
theorem process_updates_run (s : BotState) (h : s.closed = false)
    (data : Option (List RawUpdate)) :
    (process_updates s data).2 = none ∧ (process_updates s data).1.closed = false := by
  rw [process_updates_spec s h data]
  cases data with
  | none => exact ⟨rfl, h⟩
  | some l => exact ⟨rfl, h⟩

/-- Absent data and an empty batch leave the offset unchanged. -/
theorem process_updates_uid_trivial (s : BotState) (b : Option (List RawUpdate))
    (hb : b = none ∨ b = some []) :
    (process_updates s b).1.update_id = s.update_id := by
  rcases hb with hb | hb <;> subst hb <;> rfl

/-- While the bot is running, a non-empty batch whose ids stay at or above
the current offset advances the offset to `maxId` plus one. -/
theorem process_updates_uid_nonempty (s : BotState) (h : s.closed = false)
    (l : List RawUpdate) (hne : l ≠ []) (hle : s.update_id ≤ maxId l) :
    (process_updates s (some l)).1.update_id = maxId l + 1 := by
  rw [process_updates_spec s h (some l)]
  show l.foldl (fun acc r => max r.update_id acc) s.update_id +
      (if l.isEmpty then 0 else 1) = maxId l + 1
  rw [foldl_max_shift, Nat.max_eq_right hle]
  have hE : l.isEmpty = false := by
    cases l with
    | nil => exact absurd rfl hne
    | cons a t => rfl
  rw [hE]
  simp

/-- Main induction for the offset law: along any run of fetched batches
whose joint `update_id` stream is strictly increasing and stays at or above
the current offset, each `_process_updates` call completes successfully and
moves the offset to `maxId` of its batch plus one (non-empty batch), or
leaves it unchanged (empty batch or absent data). -/
theorem run_spec_aux (pre : List (Option (List RawUpdate))) :
    ∀ (s : BotState) (b : Option (List RawUpdate)) (suf : List (Option (List RawUpdate))),
      s.closed = false →
      List.Pairwise (fun a c => a < c) (streamIds (pre ++ b :: suf)) →
      (∀ i ∈ streamIds (pre ++ b :: suf), s.update_id ≤ i) →
      (process_updates (runProcess s pre) b).2 = none ∧
      (runProcess s (pre ++ [b])).update_id =
        expectedOffset (runProcess s pre).update_id b := by
  induction pre with
  | nil =>
    intro s b suf hrun hinc hle
    refine ⟨(process_updates_run s hrun b).1, ?_⟩
    show (process_updates s b).1.update_id = _
    cases b with
    | none => rfl
    | some l =>
      by_cases hl : l = []
      · subst hl
        exact process_updates_uid_trivial s (some []) (Or.inr rfl)
      · have hle2 : s.update_id ≤ maxId l := by
          apply uid_le_maxId l hl
          intro i hi
          exact hle i (List.mem_append_left _ hi)
        have hE : l.isEmpty = false := by
          cases l with
          | nil => exact absurd rfl hl
          | cons a t => rfl
        rw [process_updates_uid_nonempty s hrun l hl hle2]
        simp [expectedOffset, hE]
  | cons p pre ih =>
    intro s b suf hrun hinc hle
    have hs1 := process_updates_run s hrun p
    have hdec : streamIds ((p :: pre) ++ b :: suf) =
        (p.getD []).map RawUpdate.update_id ++ streamIds (pre ++ b :: suf) := rfl
    rw [hdec] at hinc hle
    obtain ⟨hinc1, hinc2, hcross⟩ := List.pairwise_append.mp hinc
    have hle2 : ∀ i ∈ streamIds (pre ++ b :: suf),
        (process_updates s p).1.update_id ≤ i := by
      intro i hi
      cases p with
      | none =>
        rw [process_updates_uid_trivial s none (Or.inl rfl)]
        exact hle i (List.mem_append_right _ hi)
      | some l =>
        by_cases hl : l = []
        · subst hl
          rw [process_updates_uid_trivial s (some []) (Or.inr rfl)]
          exact hle i (List.mem_append_right _ hi)
        · have hub : s.update_id ≤ maxId l := by
            apply uid_le_maxId l hl
            intro j hj
            exact hle j (List.mem_append_left _ hj)
          rw [process_updates_uid_nonempty s hrun l hl hub]
          have hlt : maxId l < i := maxId_lt l hl i (fun j hj => hcross j hj i hi)
          exact hlt
    have main := ih (process_updates s p).1 b suf hs1.2 hinc2 hle2
    exact main

/-- On a running bot, an iteration whose body ends normally makes the loop
recurse on the remaining outcomes. -/
theorem pollRun_cons_continue (s s1 : BotState) (o : FetchOutcome)
    (rest : List FetchOutcome) (hf : s.closed = false) (sl : List Sleep)
    (hiter : get_updates_iter s o = (s1, IterExit.continueLoop sl)) :
    pollRun s (o :: rest) = ((pollRun s1 rest).1, (pollRun s1 rest).2 + 1) := by
  simp [pollRun, hf, hiter]

/-! ## Claims -/

/-- Claim C1: for every run of fetched batches whose `update_id` stream is
strictly increasing, starting from a running bot with the initial offset 0,
every `_process_updates` call completes successfully and afterwards the
Offset Tracker `_update_id` equals `maxId` of that batch plus one when the
batch is non-empty, and is unchanged when the batch is empty or the data is
absent. -/
theorem offset_after_batch_dispatch
    (s : BotState) (hrun : s.closed = false) (h0 : s.update_id = 0)
    (pre : List (Option (List RawUpdate))) (b : Option (List RawUpdate))
    (suf : List (Option (List RawUpdate)))
    (hinc : List.Pairwise (fun a c => a < c) (streamIds (pre ++ b :: suf))) :
    (process_updates (runProcess s pre) b).2 = none ∧
    (runProcess s (pre ++ [b])).update_id =
      expectedOffset (runProcess s pre).update_id b :=
  run_spec_aux pre s b suf hrun hinc (fun i _ => h0 ▸ Nat.zero_le i)

/-- Witness for C1 at a concrete run: batch `[1, 3]` fetched first, then
absent data; the offset becomes `maxId [1, 3] + 1 = 4` and stays 4. -/
theorem offset_after_batch_dispatch_w :
    (process_updates (runProcess sampleState []) (some [⟨1, 0⟩, ⟨3, 0⟩])).2 = none ∧
    (runProcess sampleState [some [⟨1, 0⟩, ⟨3, 0⟩]]).update_id = 4 := by
  have h := offset_after_batch_dispatch sampleState rfl rfl []
    (some [⟨1, 0⟩, ⟨3, 0⟩]) [none] (by decide)
  exact ⟨h.1, h.2⟩

/-- Claim C2 counterexample: decorating the function `7` with the
`command()` decorator does not leave the decorated name bound to the
function `7` — `add_handler` has no `return`, so the decorator returns
Python `None`. -/
theorem decorator_returns_callback_cex :
    ¬ (apply_decorator sampleState command_decorator 7).2 = PyVal.func 7 := by
  decide

/-- Claim C2 (amended): registration through the `command()` and
`trigger_message()` decorators appends the (predicate, callback) entry, but
the decorator returns the value of `add_handler`, which is `None`, so the
decorated name is rebound to `None` instead of the original callback. -/
theorem decorator_appends_returns_none (s : BotState) (d : Decorator) (f : Nat) :
    apply_decorator s d f =
      ({ s with handlers := s.handlers ++ [⟨d.content_type, d.rule, f⟩] }, PyVal.none) := rfl

/-- Claim C3: `process_update` on a closed bot raises `RuntimeError` (the
abstract `NotInitializedError`) and changes nothing — in particular no unit
of work is spawned on the scheduler. -/
theorem process_update_closed_raises (s : BotState) (raw : RawUpdate)
    (h : s.closed = true) :
    process_update s raw = (s, some (PyErr.runtimeError "The bot isnt initialized")) := by
  simp [process_update, h]

/-- Witness for C3 at the freshly constructed (closed) bot. -/
theorem process_update_closed_raises_w :
    initialState.closed = true ∧
    process_update initialState ⟨1, 0⟩ =
      (initialState, some (PyErr.runtimeError "The bot isnt initialized")) :=
  ⟨rfl, process_update_closed_raises initialState ⟨1, 0⟩ rfl⟩

/-- Claim C4: `initialize` on a closed bot with zero registered handlers
raises `BotError` (the abstract `ConfigurationError`) and returns the state
unchanged — the raise happens before any assignment, so the bot stays not
running. -/
theorem initialise_no_handlers_error (s : BotState) (webhook : Bool)
    (hc : s.closed = true) (hh : s.handlers = []) :
    initialise s webhook =
      (s, some (PyErr.botError "Cant initialize with no one handler")) := by
  simp [initialise, hc, hh]

/-- Witness for C4 at the freshly constructed bot. -/
theorem initialise_no_handlers_error_w :
    initialise initialState false =
      (initialState, some (PyErr.botError "Cant initialize with no one handler")) :=
  initialise_no_handlers_error initialState false rfl rfl

/-- Claim C5: `initialize` on a bot that is already running returns
immediately, raising nothing and changing no state — no new scheduler, no
new polling task, handlers and offset untouched. -/
theorem initialise_running_noop (s : BotState) (webhook : Bool)
    (h : s.closed = false) :
    initialise s webhook = (s, none) := by
  simp [initialise, h]

/-- Witness for C5 at a concrete running bot. -/
theorem initialise_running_noop_w :
    initialise sampleState false = (sampleState, none) :=
  initialise_running_noop sampleState false rfl

/-- Claim C6: `close` on a running bot flips the state to closed, awaits
every job previously submitted to the scheduler, tears the scheduler down
and resets the Offset Tracker to 0 before returning — the returned trace
performs the `setClosed` write first, then one `waitJob` per scheduled job,
then teardown and the offset reset; `close` on an already-closed bot is a
no-op with an empty trace. -/
theorem close_drains_and_resets (s : BotState) :
    (s.closed = false →
      (close s).1 = { s with closed := true, scheduler := none, update_id := 0 } ∧
      (close s).2 = CloseEvent.setClosed ::
        ((s.scheduler.getD []).map CloseEvent.waitJob ++
          [CloseEvent.schedClose, CloseEvent.resetOffset])) ∧
    (s.closed = true → close s = (s, [])) := by
  constructor
  · intro h
    constructor
    · simp [close, h]
    · simp [close, h]
  · intro h
    simp [close, h]

/-- Witness for C6: closing the running sample bot zeroes the offset and
waits for its scheduled job; closing the fresh (already closed) bot is a
no-op. -/
theorem close_drains_and_resets_w :
    (close sampleState).1.update_id = 0 ∧
    (close sampleState).2 = [CloseEvent.setClosed, CloseEvent.waitJob Job.poller,
      CloseEvent.schedClose, CloseEvent.resetOffset] ∧
    close initialState = (initialState, []) := by
  refine ⟨?_, ?_, (close_drains_and_resets initialState).2 rfl⟩
  · rw [((close_drains_and_resets sampleState).1 rfl).1]
  · rw [((close_drains_and_resets sampleState).1 rfl).2]
    rfl

/-- Claim C7: an iteration of the polling loop that fetches a
`TelegramApiError` sleeps 30 time-units before retrying when the carried
status is at least 500, sleeps 10 time-units when it is below 500, and in
both cases leaves the whole state — in particular the Offset Tracker —
unchanged, with the loop going on. -/
theorem poll_api_error_backoff (s : BotState) (status : Nat) :
    (500 ≤ status →
      get_updates_iter s (FetchOutcome.apiError status) =
        (s, IterExit.continueLoop [Sleep.fixed 30])) ∧
    (status < 500 →
      get_updates_iter s (FetchOutcome.apiError status) =
        (s, IterExit.continueLoop [Sleep.fixed 10])) ∧
    (get_updates_iter s (FetchOutcome.apiError status)).1.update_id = s.update_id := by
  refine ⟨fun h => ?_, fun h => ?_, rfl⟩
  · simp [get_updates_iter, h]
  · simp [get_updates_iter, Nat.not_le.mpr h]

/-- Witness for C7 at statuses 503 and 404 on the running sample bot. -/
theorem poll_api_error_backoff_w :
    get_updates_iter sampleState (FetchOutcome.apiError 503) =
      (sampleState, IterExit.continueLoop [Sleep.fixed 30]) ∧
    get_updates_iter sampleState (FetchOutcome.apiError 404) =
      (sampleState, IterExit.continueLoop [Sleep.fixed 10]) :=
  ⟨(poll_api_error_backoff sampleState 503).1 (by decide),
   (poll_api_error_backoff sampleState 404).2.1 (by decide)⟩

/-- Claim C8: the polling loop stops only because the `_closed` check at
the top of an iteration observes a closed bot; no fetch outcome — success,
`TelegramApiError`, timeout or `aiohttp.ClientError` — terminates it.  On a
running bot the loop enters one iteration per scheduled outcome and is
still running afterwards; on a closed bot it enters none. -/
theorem poll_loop_exit_only_on_close (s : BotState) (os : List FetchOutcome) :
    (pollRun s os).2 = (if s.closed = true then 0 else os.length) ∧
    (pollRun s os).1.closed = s.closed := by
  induction os generalizing s with
  | nil => simp [pollRun]
  | cons o rest ih =>
    by_cases h : s.closed = true
    · simp [pollRun, h]
    · have hf : s.closed = false := by
        revert h; cases s.closed <;> simp
      cases o with
      | success data =>
        obtain ⟨h2, h3⟩ := process_updates_run s hf data
        rcases hps : process_updates s data with ⟨s1, e⟩
        rw [hps] at h2 h3
        have he : e = none := h2
        have hc1 : s1.closed = false := h3
        subst he
        have hiter : get_updates_iter s (FetchOutcome.success data) =
            (s1, IterExit.continueLoop [Sleep.interval]) := by
          simp [get_updates_iter, hps]
        rw [pollRun_cons_continue s s1 _ rest hf _ hiter]
        refine ⟨?_, ?_⟩
        · rw [(ih s1).1, hc1, hf]
          simp
        · rw [(ih s1).2, hc1, hf]
      | apiError status =>
        rw [pollRun_cons_continue s s (FetchOutcome.apiError status) rest hf _ rfl]
        refine ⟨?_, ?_⟩
        · rw [(ih s).1, hf]
          simp
        · rw [(ih s).2]
      | timeoutError =>
        rw [pollRun_cons_continue s s FetchOutcome.timeoutError rest hf _ rfl]
        refine ⟨?_, ?_⟩
        · rw [(ih s).1, hf]
          simp
        · rw [(ih s).2]
      | clientError =>
        rw [pollRun_cons_continue s s FetchOutcome.clientError rest hf _ rfl]
        refine ⟨?_, ?_⟩
        · rw [(ih s).1, hf]
          simp
        · rw [(ih s).2]

/-- Claim C9 counterexample: on the running sample bot with offset 0,
processing the batch `[5, 7]` already changes the Offset Tracker to 5 after
the first update has been submitted and before the second one has — the
tracker does not wait for the whole batch. -/
theorem offset_mid_batch_changes_cex :
    ¬ (process_updates_go sampleState ([⟨5, 0⟩, ⟨7, 0⟩].take 1)).1.update_id =
        sampleState.update_id := by
  decide

/-- Claim C9 (amended): while a batch is being processed the Offset Tracker
advances incrementally — after the first `k` updates of the batch have been
submitted it equals the running maximum of the initial offset and those `k`
ids (so it can change before the batch is finished) — and only the final
`+ 1` advance of `_process_updates` happens after the full batch has been
submitted. -/
theorem offset_mid_batch_spec (s : BotState) (h : s.closed = false)
    (batch : List RawUpdate) (k : Nat) :
    (process_updates_go s (batch.take k)).1.update_id =
      (batch.take k).foldl (fun acc r => max r.update_id acc) s.update_id ∧
    (process_updates_go s (batch.take k)).1.scheduler =
      s.scheduler.map (fun js => js ++ (batch.take k).map Job.dispatch) ∧
    (process_updates s (some batch)).1.update_id =
      (process_updates_go s batch).1.update_id + (if batch.isEmpty then 0 else 1) := by
  refine ⟨?_, ?_, ?_⟩
  · rw [go_spec _ s h]
  · rw [go_spec _ s h]
  · rw [process_updates_spec s h (some batch), go_spec _ s h]

/-- Witness for C9 (amended) mid-way through the batch `[5, 7]`. -/
theorem offset_mid_batch_spec_w :
    (process_updates_go sampleState ([⟨5, 0⟩, ⟨7, 0⟩].take 1)).1.update_id =
      ([(⟨5, 0⟩ : RawUpdate), ⟨7, 0⟩].take 1).foldl
        (fun acc r => max r.update_id acc) sampleState.update_id :=
  (offset_mid_batch_spec sampleState rfl [⟨5, 0⟩, ⟨7, 0⟩] 1).1

/-- Claim C10: calling `trigger_message` with a falsy `message_type`
(the default `None` is the only falsy value, since the kind members are
truthy) raises `BotError` immediately: no decorator is produced and the
state — in particular the handler list — is untouched. -/
theorem trigger_message_falsy_raises (s : BotState) (mt : Option MessageType)
    (rule : Option Rule) (h : truthy mt = false) :
    trigger_message s mt rule =
      (s, Except.error
        (PyErr.botError "message_type Union Chat Incoming Content must be specifized")) := by
  cases mt with
  | none => rfl
  | some v => simp [truthy] at h

/-- Witness for C10 at the default argument `None`. -/
theorem trigger_message_falsy_raises_w :
    truthy none = false ∧
    trigger_message sampleState none none =
      (sampleState, Except.error
        (PyErr.botError "message_type Union Chat Incoming Content must be specifized")) :=
  ⟨rfl, trigger_message_falsy_raises sampleState none none rfl⟩
